import Mathlib

/- Shallow embedding of the RAG-SQL query pipeline of this repository
   (llm_models.py, query_chain.py, rag_retriever.py, db_executor.py,
   result_formatter_llm.py).  Python strings are modelled as lists of
   characters; every external service (language model, embedding model,
   vector store, SQL parser, database) is an oracle field of the `Env`
   record defined further below. -/

/-- Python strings are modelled as lists of characters. -/
abbrev Str := List Char

/-- Coerce a Lean string literal to the `Str` model. -/
def pyStr (s : String) : Str := s.data

/-- The characters Python `str.strip()` removes. -/
def isPySpace (c : Char) : Bool :=
  c = ' ' || c = '\t' || c = '\n' || c = '\r' || c = '\x0b' || c = '\x0c'

/-- Python `s.strip()`. -/
def pyStrip (s : Str) : Str :=
  ((s.dropWhile isPySpace).reverse.dropWhile isPySpace).reverse

/-- Python `s.lower()` (ASCII case mapping). -/
def pyLower (s : Str) : Str := s.map Char.toLower

/-- Python `s.upper()` (ASCII case mapping; index-preserving, which is all
the source relies on when it slices the original text at an index found in
the uppercased text). -/
def pyUpper (s : Str) : Str := s.map Char.toUpper

/-- Whether `p` is a prefix of `s` (Boolean, executable). -/
def isPre : Str → Str → Bool
  | [], _ => true
  | _ :: _, [] => false
  | a :: p, b :: s => a == b && isPre p s

/-- Python `s.startswith(p)`. -/
def list_starts_with (p s : Str) : Bool := isPre p s

/-- Python `s.endswith(p)`. -/
def list_ends_with (p s : Str) : Bool := isPre p.reverse s.reverse

/-- Python `needle in hay` (substring containment). -/
def hasSub (needle : Str) : Str → Bool
  | [] => isPre needle []
  | b :: t => isPre needle (b :: t) || hasSub needle t

/-- Python `hay.find(needle)`, as an `Option` (the source only uses the
index after checking `needle in hay`). -/
def findSub (needle : Str) : Str → Option Nat
  | [] => if isPre needle [] then some 0 else none
  | b :: t =>
    if isPre needle (b :: t) then some 0
    else
      match findSub needle t with
      | none => none
      | some i => some (i + 1)

theorem findSub_nil_of_ne (needle : Str) (h : needle ≠ []) :
    findSub needle [] = none := by
  cases needle with
  | nil => exact absurd rfl h
  | cons a p => simp [findSub, isPre]

/-- Worker for `pyReplace`, structurally recursive on a fuel that bounds
the recursion depth (each step consumes at least one character, so
`s.length + 1` fuel is never exhausted). -/
def pyReplaceGo : Nat → Str → Str → Str → Str
  | 0, s, _, _ => s
  | _ + 1, [], _, _ => []
  | f + 1, c :: rest, old, new =>
    if !old.isEmpty && isPre old (c :: rest) then
      new ++ pyReplaceGo f (List.drop old.length (c :: rest)) old new
    else c :: pyReplaceGo f rest old new

/-- Python `s.replace(old, new)` for a non-empty `old` (the source only
replaces the non-empty markers; an empty `old` returns `s` unchanged
here). -/
def pyReplace (s old new : Str) : Str := pyReplaceGo (s.length + 1) s old new

/-- Worker for `pySplit`, structurally recursive on a fuel that bounds the
recursion depth (each step consumes at least one character). -/
def pySplitGo : Nat → Str → Str → List Str
  | 0, s, _ => [s]
  | f + 1, s, sep =>
    if sep.isEmpty then [s]
    else
      match findSub sep s with
      | none => [s]
      | some i => s.take i :: pySplitGo f (s.drop (i + sep.length)) sep

/-- Python `s.split(sep)` for a non-empty separator. -/
def pySplit (s sep : Str) : List Str := pySplitGo (s.length + 1) s sep

/-- Python `sep.join(parts)`. -/
def pyJoin (sep : Str) (parts : List Str) : Str := List.intercalate sep parts

/-- Decimal rendering of a natural number. -/
def natToStr (n : Nat) : Str := Nat.toDigits 10 n

/- =====================  llm_models.py  ===================== -/

/-- Classification parsing of `InjectionCheckLLM.check_injection`
(llm_models.py, lines 217-230): the raw classifier response is stripped,
lowercased and scanned for the marker substrings, checking "valid" first,
then "injection", then "unrelated"; an unrecognised response falls through
to "unrelated". -/
def classify_response (response : Str) : Str :=
  let r := pyLower (pyStrip response)
  if hasSub (pyStr "valid") r then pyStr "valid"
  else if hasSub (pyStr "injection") r then pyStr "injection"
  else if hasSub (pyStr "unrelated") r then pyStr "unrelated"
  else pyStr "unrelated"

/-- `InjectionCheckLLM.check_injection` (llm_models.py, lines 211-235): the
outcome of the external classification call is either an exception
(`.error`, caught by the handler, which returns "unrelated") or the
returned text, which is parsed by the marker scan. -/
def check_injection (call : Except Str Str) : Str :=
  match call with
  | .error _ => pyStr "unrelated"
  | .ok response => classify_response response

theorem check_injection_cases (call : Except Str Str) :
    check_injection call = pyStr "valid" ∨ check_injection call = pyStr "injection" ∨
      check_injection call = pyStr "unrelated" := by
  cases call with
  | error e => right; right; rfl
  | ok response =>
    unfold check_injection classify_response
    by_cases h1 : hasSub (pyStr "valid") (pyLower (pyStrip response)) = true
    · left; simp [h1]
    · by_cases h2 : hasSub (pyStr "injection") (pyLower (pyStrip response)) = true
      · right; left; simp [h1, h2]
      · right; right
        by_cases h3 : hasSub (pyStr "unrelated") (pyLower (pyStrip response)) = true
        · simp [h1, h2, h3]
        · simp [h1, h2, h3]

theorem check_injection_ne_nil (call : Except Str Str) :
    check_injection call ≠ [] := by
  rcases check_injection_cases call with h | h | h <;> rw [h] <;> decide

/-- The recognised statement keywords of `SQLGeneratorLLM._extract_sql`. -/
def genKeywords : List Str :=
  [pyStr "SELECT", pyStr "INSERT", pyStr "UPDATE", pyStr "DELETE", pyStr "WITH"]

/-- Python `s.startswith((k1, ..., kn))`. -/
def starts_with_any (kws : List Str) (s : Str) : Bool :=
  kws.any (fun k => list_starts_with k s)

/-- Markdown-fence handling of `SQLGeneratorLLM._extract_sql`
(llm_models.py, lines 371-375): a response starting with a "```sql" fence
has every occurrence of "```sql" and "```" removed; a response starting
with a bare "```" fence has every occurrence of "```" removed. -/
def strip_code_fence (r : Str) : Str :=
  if list_starts_with (pyStr "```sql") r then
    pyStrip (pyReplace (pyReplace r (pyStr "```sql") []) (pyStr "```") [])
  else if list_starts_with (pyStr "```") r then
    pyStrip (pyReplace r (pyStr "```") [])
  else r

/-- `SQLGeneratorLLM._extract_sql` (llm_models.py, lines 366-384): strip,
remove a markdown fence, and if the text does not begin with one of the
recognised keywords but contains "SELECT" (checked on the uppercased text),
drop everything before the first occurrence of "SELECT". -/
def extract_sql (response : Str) : Str :=
  let r := strip_code_fence (pyStrip response)
  let r2 :=
    if !starts_with_any genKeywords (pyUpper r) then
      match findSub (pyStr "SELECT") (pyUpper r) with
      | some i => r.drop i
      | none => r
    else r
  pyStrip r2

/-- The statement keywords scanned for by `SQLCorrectorLLM._extract_sql_clean`. -/
def cleanKeywords : List Str :=
  [pyStr "SELECT", pyStr "WITH", pyStr "INSERT", pyStr "UPDATE", pyStr "DELETE"]

/-- Markdown-fence handling of `SQLCorrectorLLM._extract_sql_clean`
(llm_models.py, lines 419-426): if "```sql" occurs anywhere, take the text
between the first "```sql" and the following "```"; otherwise if "```"
occurs, take the text of the second split part. -/
def clean_code_fence (r : Str) : Str :=
  if hasSub (pyStr "```sql") r then
    pyStrip ((pySplit ((pySplit r (pyStr "```sql")).getD 1 []) (pyStr "```")).getD 0 [])
  else if hasSub (pyStr "```") r then
    let parts := pySplit r (pyStr "```")
    if 2 ≤ parts.length then pyStrip (parts.getD 1 []) else r
  else r

/-- The line-collection loop of `SQLCorrectorLLM._extract_sql_clean`
(llm_models.py, lines 429-448): skip blank lines, start collecting at the
first line whose uppercasing begins with a statement keyword, and stop
after a line ending in ";". -/
def collect_sql_lines : List Str → Bool → List Str
  | [], _ => []
  | l :: rest, started =>
    let ls := pyStrip l
    if ls = [] then collect_sql_lines rest started
    else
      let started2 := started || starts_with_any cleanKeywords (pyUpper ls)
      if started2 then
        if list_ends_with (pyStr ";") ls then [ls]
        else ls :: collect_sql_lines rest started2
      else collect_sql_lines rest started2

/-- The assembly part of `SQLCorrectorLLM._extract_sql_clean`
(llm_models.py, lines 417-464): fence removal, line collection, the
SELECT-based fallback (truncated at the first ";"), and the final join
(or raw stripped pass-through when nothing was collected). -/
def assemble_sql (response : Str) : Str :=
  let r := clean_code_fence (pyStrip response)
  let lines := pySplit r (pyStr "\n")
  let sql_lines := collect_sql_lines lines false
  let sql_lines2 :=
    if sql_lines = [] && hasSub (pyStr "SELECT") (pyUpper r) then
      let i := (findSub (pyStr "SELECT") (pyUpper r)).getD 0
      let r2 := r.drop i
      let r3 :=
        match r2.findIdx? (fun c => c = ';') with
        | some j => r2.take (j + 1)
        | none => r2
      [pyStrip r3]
    else sql_lines
  if !sql_lines2.isEmpty then pyJoin (pyStr " ") sql_lines2 else pyStrip r

/-- The terminator normalisation of `SQLCorrectorLLM._extract_sql_clean`
(llm_models.py, lines 467-468): append ";" when the assembled string is
non-empty (Python truthy) and does not already end in ";". -/
def finalize_semicolon (c : Str) : Str :=
  if !c.isEmpty && !list_ends_with (pyStr ";") c then c ++ pyStr ";" else c

/-- `SQLCorrectorLLM._extract_sql_clean` (llm_models.py, lines 415-470). -/
def extract_sql_clean (response : Str) : Str :=
  finalize_semicolon (assemble_sql response)

/- =====================  query_chain.py : validator  ===================== -/

/-- `QueryToSQLChain.validate_sql_syntax` (query_chain.py, lines 24-37),
shortened here to `validate_sql`.
The external `sqlparse.parse` call is an oracle returning either an
exception or the list of parsed statements, each statement being its list
of tokens (a token is modelled by its text).  An exception is caught and
yields `false`; otherwise the result is `true` iff the parse produced at
least one statement with at least one token. -/
def validate_sql (parse : Str → Except Str (List (List Str))) (sql : Str) : Bool :=
  match parse sql with
  | .error _ => false
  | .ok parsed =>
    if parsed.isEmpty then false
    else parsed.any (fun statement => !statement.isEmpty)

/-- Modelled from the spec: the repository delegates SQL parsing to the
external `sqlparse` library, whose code is not part of this source tree.
Following the specification of the SyntaxValidator ("parses sql_text under
the target SQL dialect's tokenizer/grammar"; "guards against empty or
whitespace-only input silently parsing to nothing"), whitespace-only text
parses to no statements at all, and any other text parses to one statement
whose token list is non-empty (here: the text itself as a single token). -/
def sqlparse_model (s : Str) : Except Str (List (List Str)) :=
  if (s.filter (fun c => !isPySpace c)).isEmpty then .ok []
  else .ok [[s]]

/- ==========  external-service environment and data shapes  ========== -/

/-- A database row: each cell is NULL (`none`) or its string rendering. -/
abbrev Row := List (Option Str)

/-- The shapes `DatabaseExecutor.execute_query` (db_executor.py, lines
21-72) can return: `(columns, rows)` for a SELECT, or `(None, s)` with a
message string (success confirmation, "Database Error: ..." or
"Unexpected Error: ..." text) for everything else.  The executor catches
every exception itself and never raises. -/
inductive ExecOut where
  | table (cols : List Str) (rows : List Row)
  | message (s : Str)

/-- The three prompt shapes `ResultFormatterLLM.format_query_results`
sends to the text generator, keyed by the data each prompt depends on:
the error prompt and the no-data prompt mention only the user query, the
data prompt additionally contains the rendered sample and the total row
count. -/
inductive FmtKey where
  | errK (user_query : Str)
  | nodataK (user_query : Str)
  | dataK (user_query : Str) (sample : Str) (total : Nat)

/-- The oracle environment: one field per external call site.  Text
generation never raises (`GeminiLLM.generate_response` catches and returns
a sentinel string), so those oracles are plain functions; the embedding
call, the vector-store query and the SQL parse may raise. -/
structure Env where
  /-- Outcome of the classification call inside `check_injection`. -/
  classifyCall : Except Str Str
  /-- `genai.embed_content` inside `RAGRetriever._get_embedding`. -/
  embedCall : Str → Except Str (List ℚ)
  /-- `self.collection.query` in `RAGRetriever.retrieve_chunks`: documents
  zipped with their distances. -/
  storeQuery : List ℚ → Nat → Except Str (List (Str × ℚ))
  /-- `RAGRetriever.threshold` (1.75 by default). -/
  threshold : ℚ
  /-- `QueryToSQLChain.top_k` (2 by default). -/
  topk : Nat
  /-- `ReasoningLLM.generate_reasoning` response for (query, schema context). -/
  reasonCall : Str → Str → Str
  /-- `SQLGeneratorLLM` raw response for (query, reasoning, schema context). -/
  genCall : Str → Str → Str → Str
  /-- `SQLCorrectorLLM` raw response for (invalid sql, schema context, user query). -/
  correctCall : Str → Str → Str → Str
  /-- `ResultFormatterLLM` response per prompt shape. -/
  fmtCall : FmtKey → Str
  /-- `sqlparse.parse`. -/
  parse : Str → Except Str (List (List Str))
  /-- `DatabaseExecutor.execute_query`. -/
  exec : Str → ExecOut

/- =====================  rag_retriever.py  ===================== -/

/-- `RAGRetriever._get_embedding` (rag_retriever.py, lines 30-41): an
exception from the embedding service is caught and becomes the empty
list. -/
def get_embedding (env : Env) (text : Str) : List ℚ :=
  match env.embedCall text with
  | .error _ => []
  | .ok v => v

/-- `RAGRetriever.retrieve_chunks` (rag_retriever.py, lines 243-269): an
empty query embedding short-circuits to an empty result; otherwise the
store is queried and the (document, distance) pairs with distance above
the threshold are filtered out.  A store exception propagates. -/
def retrieve_chunks (env : Env) (query : Str) (k : Nat) : Except Str (List (Str × ℚ)) :=
  let query_embedding := get_embedding env query
  if query_embedding.isEmpty then .ok []
  else
    match env.storeQuery query_embedding k with
    | .error e => .error e
    | .ok res => .ok (res.filter (fun p => decide (p.2 ≤ env.threshold)))

/-- Fixed-point rendering of a distance with three decimals, modelling
Python's `f"{score:.3f}"` over `ℚ` (rounding half away from zero rather
than the float half-even; no verified claim depends on the digits). -/
def formatScore (q : ℚ) : Str :=
  let a : ℚ := |q|
  let m : Nat := (⌊a * 1000 + 1/2⌋).toNat
  let ip := m / 1000
  let fp := m % 1000
  let d := natToStr fp
  (if q < 0 then pyStr "-" else []) ++ natToStr ip ++ pyStr "." ++
    (List.replicate (3 - d.length) '0' ++ d)

/-- One rendered chunk of `RAGRetriever.get_schema_context`
(rag_retriever.py, lines 288-289). -/
def context_entry (i : Nat) (doc : Str) (score : ℚ) : Str :=
  pyStr "Schema " ++ natToStr i ++ pyStr " (Relevance Score: " ++ formatScore score ++
    pyStr "):\n" ++ doc ++ pyStr "\n\n"

/-- The enumeration loop of `RAGRetriever.get_schema_context` (1-based). -/
def context_entries : Nat → List (Str × ℚ) → Str
  | _, [] => []
  | i, (doc, score) :: rest => context_entry i doc score ++ context_entries (i + 1) rest

/-- The context string built for a non-empty chunk list. -/
def build_schema_context (chunks : List (Str × ℚ)) : Str :=
  pyStr "Relevant Database Schema:\n\n" ++ context_entries 1 chunks

/-- `RAGRetriever.get_schema_context` (rag_retriever.py, lines 271-291):
the sentinel string for an empty retrieval, the rendered block otherwise. -/
def get_schema_context (env : Env) (query : Str) (k : Nat) : Except Str Str :=
  match retrieve_chunks env query k with
  | .error e => .error e
  | .ok chunks =>
    if chunks.isEmpty then .ok (pyStr "No relevant schema found.")
    else .ok (build_schema_context chunks)

/- ==========  result_formatter_llm.py and db_executor.py  ========== -/

/-- Python truthiness of an optional string (`if error_message:`). -/
def pyTruthyOptStr : Option Str → Bool
  | none => false
  | some s => !s.isEmpty

/-- `ResultFormatterLLM._prepare_data_sample` (result_formatter_llm.py,
lines 102-141).  `columns` is kept optional because the orchestrator can
pass `None` through; Python then raises a TypeError at the header join,
modelled as `.error`. -/
def prepare_data_sample (columns : Option (List Str)) (results : List Row)
    (total_rows : Nat) (max_rows : Nat) : Except Str Str :=
  if results.isEmpty then .ok (pyStr "No data available")
  else
    match columns with
    | none => .error (pyStr "TypeError")
    | some cols =>
      let sample_results := results.take max_rows
      let header := pyJoin (pyStr " | ") cols
      let sep := List.replicate header.length '-'
      let body := sample_results.map fun row =>
        pyJoin (pyStr " | ") (row.map fun v => v.getD (pyStr "NULL"))
      let trailer :=
        if sample_results.length < total_rows then
          [pyStr "... and " ++ natToStr (total_rows - sample_results.length) ++
            pyStr " more records"]
        else []
      .ok (pyJoin (pyStr "\n") (header :: sep :: body ++ trailer))

/-- `ResultFormatterLLM.format_query_results` (result_formatter_llm.py,
lines 44-100): an error message selects the error-rendering prompt, a zero
row count the no-data prompt, anything else the data prompt fed with the
rendered sample. -/
def format_query_results (env : Env) (user_query : Str) (columns : Option (List Str))
    (results : List Row) (error_message : Option Str) (total_rows : Option Nat) :
    Except Str Str :=
  if pyTruthyOptStr error_message then .ok (env.fmtCall (FmtKey.errK user_query))
  else
    let actual_total_rows := total_rows.getD results.length
    if actual_total_rows = 0 then .ok (env.fmtCall (FmtKey.nodataK user_query))
    else
      match prepare_data_sample columns results actual_total_rows 10 with
      | .error e => .error e
      | .ok sample => .ok (env.fmtCall (FmtKey.dataK user_query sample actual_total_rows))

/-- `DatabaseExecutor.get_result_summary` (db_executor.py, lines 127-143). -/
structure ResultSummary where
  total_rows : Nat
  total_columns : Nat
  column_names : List Str
  has_data : Bool
deriving DecidableEq

def get_result_summary (columns : List Str) (results : List Row) : ResultSummary :=
  { total_rows := results.length
    total_columns := columns.length
    column_names := columns
    has_data := decide (0 < results.length) }

/- =====================  query_chain.py : pipeline  ===================== -/

/-- `ReasoningLLM.generate_reasoning` (llm_models.py, lines 242-319): one
generation call, output forwarded unparsed. -/
def generate_reasoning (env : Env) (query schema_context : Str) : Str :=
  env.reasonCall query schema_context

/-- `SQLGeneratorLLM.generate_sql` (llm_models.py, lines 326-364): one
generation call followed by `_extract_sql`. -/
def generate_sql (env : Env) (query reasoning schema_context : Str) : Str :=
  extract_sql (env.genCall query reasoning schema_context)

/-- `SQLCorrectorLLM.correct_sql` (llm_models.py, lines 391-413): one
generation call followed by `_extract_sql_clean`. -/
def correct_sql (env : Env) (invalid_sql schema_context user_query : Str) : Str :=
  extract_sql_clean (env.correctCall invalid_sql schema_context user_query)

/-- The `execution_results` sub-dictionary of the success response of
`process_query_with_execution` (query_chain.py, lines 160-165). -/
structure ExecutionResults where
  columns : Option (List Str)
  row_count : Nat
  data : List Row
  has_more_data : Bool
deriving DecidableEq

/-- The response dictionary of `QueryToSQLChain.process_query` and
`QueryToSQLChain.process_query_with_execution`: one optional field per
key; a key absent from the Python dictionary is `none`. -/
structure PQResult where
  status : Str
  user_query : Str
  error_type : Option Str := none
  error_message : Option Str := none
  formatted_response : Option Str := none
  sql_query : Option Str := none
  original_sql : Option Str := none
  schema_context : Option Str := none
  reasoning : Option Str := none
  retrieved_chunks : Option (List (Str × ℚ)) := none
  was_corrected : Option Bool := none
  is_valid : Option Bool := none
  was_sql_corrected : Option Bool := none
  is_sql_valid : Option Bool := none
  security_check_passed : Option Bool := none
  execution_results : Option ExecutionResults := none
  summary : Option ResultSummary := none

/-- Which stages a run invoked, and with what intermediate values — the
run-trace instrumentation of one call to an entry point. -/
structure Trace where
  retrievalCalled : Bool := false
  reasoningCalled : Bool := false
  generationCalled : Bool := false
  correctionCalls : Nat := 0
  executionCalled : Bool := false
  generatedSql : Option Str := none
  schemaCtx : Option Str := none
  finalSql : Option Str := none

def security_error_message : Str :=
  pyStr "This query contains inappropriate content that violates security policies. Please rephrase your request using only standard data retrieval language without any database modification commands."

def security_formatted_response : Str :=
  pyStr "I cannot process this request as it contains content that violates our security policies. Please rephrase your question using standard data retrieval language."

def unrelated_error_message : Str :=
  pyStr "This query is not related to the healthcare analytics database."

def unrelated_formatted_response : Str :=
  pyStr "I\x27m a healthcare analytics assistant designed to help you query our healthcare database containing information about healthcare professionals and medical representative interactions. Your question appears to be unrelated to this database. Please ask questions about HCPs, medical representatives, interactions, specialties, or related healthcare data analysis."

/-- The apology text of the top-level catch of
`process_query_with_execution` (query_chain.py, line 186). -/
def apology_msg (e : Str) : Str :=
  pyStr "I apologize, but I encountered an unexpected error while processing your request: " ++
    e ++ pyStr ". Please try rephrasing your question or contact support if the issue persists."

/-- The `processing_error` terminal result of
`process_query_with_execution` (query_chain.py, lines 188-194). -/
def processing_error_result (uq e : Str) : PQResult :=
  { status := pyStr "error"
    error_type := some (pyStr "processing_error")
    error_message := some e
    user_query := uq
    formatted_response := some (apology_msg e) }

/-- The executor-failure check of `process_query_with_execution`
(query_chain.py, line 118): columns is None, the result is a string, and
it starts with one of the two error markers. -/
def is_db_error (s : Str) : Bool :=
  list_starts_with (pyStr "Database Error:") s ||
    list_starts_with (pyStr "Unexpected Error:") s

/-- Steps 5-6 of `process_query_with_execution` (query_chain.py, lines
113-182): execution, the database-error branch, result formatting and the
success response.  A `.message` outcome stands for Python's
`(None, string)` executor return; for a non-empty non-error message the
original code feeds the string into the formatter, which raises a
TypeError at the header join (`columns` is None) — caught by the top-level
handler as a `processing_error`. -/
def pqwe_exec_phase (env : Env) (uq schema_context reasoning : Str)
    (chunks : List (Str × ℚ)) (sql_query : Str) (is_valid_sql : Bool)
    (valid_sql_query : Str) : PQResult :=
  match env.exec valid_sql_query with
  | ExecOut.message s =>
    if is_db_error s then
      match format_query_results env uq none [] (some s) none with
      | .error e => processing_error_result uq e
      | .ok formatted =>
        { status := pyStr "error"
          error_type := some (pyStr "database_execution")
          error_message := some s
          user_query := uq
          sql_query := some valid_sql_query
          formatted_response := some formatted }
    else if s.isEmpty then
      -- llm_results and the data payload collapse to [] (empty string is falsy)
      match format_query_results env uq none [] none (some 0) with
      | .error e => processing_error_result uq e
      | .ok formatted =>
        { status := pyStr "success"
          user_query := uq
          sql_query := some valid_sql_query
          execution_results := some
            { columns := none, row_count := 0, data := [], has_more_data := false }
          formatted_response := some formatted
          summary := some (get_result_summary [] [])
          retrieved_chunks := some chunks
          reasoning := some reasoning
          was_sql_corrected := some (!is_valid_sql)
          is_sql_valid := some (validate_sql env.parse valid_sql_query)
          security_check_passed := some true }
    else processing_error_result uq (pyStr "TypeError")
  | ExecOut.table cols rows =>
    let llm_results := if 20 < rows.length then rows.take 20 else rows
    let actual_row_count := rows.length
    match format_query_results env uq (some cols) llm_results none (some actual_row_count) with
    | .error e => processing_error_result uq e
    | .ok formatted =>
      { status := pyStr "success"
        user_query := uq
        sql_query := some valid_sql_query
        execution_results := some
          { columns := some cols, row_count := rows.length, data := rows,
            has_more_data := false }
        formatted_response := some formatted
        summary := some (get_result_summary cols rows)
        retrieved_chunks := some chunks
        reasoning := some reasoning
        was_sql_corrected := some (!is_valid_sql)
        is_sql_valid := some (validate_sql env.parse valid_sql_query)
        security_check_passed := some true }

/-- Steps 1-4 of `process_query_with_execution` (query_chain.py, lines
71-111) once the security gate has been passed: reasoning, generation,
validation and the single conditional correction, then the execution
phase.  The trace does not depend on the execution outcome. -/
def pqwe_after_gate (env : Env) (uq schema_context : Str)
    (chunks : List (Str × ℚ)) : PQResult × Trace :=
  let reasoning := generate_reasoning env uq schema_context
  let sql_query := generate_sql env uq reasoning schema_context
  let is_valid_sql := validate_sql env.parse sql_query
  let valid_sql_query :=
    if is_valid_sql then sql_query
    else correct_sql env sql_query schema_context uq
  let tr : Trace :=
    { retrievalCalled := true
      reasoningCalled := true
      generationCalled := true
      correctionCalls := if is_valid_sql then 0 else 1
      executionCalled := true
      generatedSql := some sql_query
      schemaCtx := some schema_context
      finalSql := some valid_sql_query }
  (pqwe_exec_phase env uq schema_context reasoning chunks sql_query is_valid_sql
    valid_sql_query, tr)

/-- `QueryToSQLChain.process_query_with_execution` (query_chain.py, lines
39-194): the security gate with its two rejection branches, the two
retrieval calls (whose exceptions reach the top-level handler), then the
post-gate pipeline. -/
def process_query_with_execution (env : Env) (uq : Str) : PQResult × Trace :=
  let classification := check_injection env.classifyCall
  if classification = pyStr "injection" then
    ({ status := pyStr "error"
       error_type := some (pyStr "security_violation")
       error_message := some security_error_message
       user_query := uq
       formatted_response := some security_formatted_response }, {})
  else if classification = pyStr "unrelated" then
    ({ status := pyStr "error"
       error_type := some (pyStr "unrelated_query")
       error_message := some unrelated_error_message
       user_query := uq
       formatted_response := some unrelated_formatted_response }, {})
  else
    match get_schema_context env uq env.topk with
    | .error e => (processing_error_result uq e, { retrievalCalled := true })
    | .ok schema_context =>
      match retrieve_chunks env uq env.topk with
      | .error e => (processing_error_result uq e, { retrievalCalled := true })
      | .ok chunks => pqwe_after_gate env uq schema_context chunks

/-- The top-level catch of `QueryToSQLChain.process_query` (query_chain.py,
lines 282-288): status and message only — no error kind and no formatted
response. -/
def pq_catch_result (uq e : Str) : PQResult :=
  { status := pyStr "error"
    error_message := some e
    user_query := uq }

/-- `QueryToSQLChain.process_query` (query_chain.py, lines 196-288), the
no-execution entry point.  Its gate tests Python truthiness of the
classification string (`if not is_safe:`), i.e. emptiness. -/
def process_query (env : Env) (uq : Str) : PQResult × Trace :=
  let is_safe := check_injection env.classifyCall
  if is_safe.isEmpty then
    ({ status := pyStr "error"
       error_type := some (pyStr "security_violation")
       error_message := some security_error_message
       user_query := uq }, {})
  else
    match get_schema_context env uq env.topk with
    | .error e => (pq_catch_result uq e, { retrievalCalled := true })
    | .ok schema_context =>
      match retrieve_chunks env uq env.topk with
      | .error e => (pq_catch_result uq e, { retrievalCalled := true })
      | .ok chunks =>
        let reasoning := generate_reasoning env uq schema_context
        let sql_query := generate_sql env uq reasoning schema_context
        let is_valid_sql := validate_sql env.parse sql_query
        let valid_sql_query :=
          if is_valid_sql then sql_query
          else correct_sql env sql_query schema_context uq
        ({ status := pyStr "success"
           user_query := uq
           retrieved_chunks := some chunks
           schema_context := some schema_context
           reasoning := some reasoning
           original_sql := some sql_query
           sql_query := some valid_sql_query
           was_corrected := some (!is_valid_sql)
           is_valid := some (validate_sql env.parse valid_sql_query)
           security_check_passed := some true },
         { retrievalCalled := true
           reasoningCalled := true
           generationCalled := true
           correctionCalls := if is_valid_sql then 0 else 1
           generatedSql := some sql_query
           schemaCtx := some schema_context
           finalSql := some valid_sql_query })

/- =====================  claims  ===================== -/

/-- C1: the marker scan of `check_injection` tests "valid" before
"injection", so a classifier response containing both marker substrings is
classified "valid" — not "injection" as the claim (and the specification's
priority order) requires.  The code therefore contradicts the claim. -/
theorem check_injection_both_markers_yields_valid :
    hasSub (pyStr "injection") (pyStr "injection, not valid") = true ∧
    hasSub (pyStr "valid") (pyStr "injection, not valid") = true ∧
    check_injection (.ok (pyStr "injection, not valid")) = pyStr "valid" ∧
    check_injection (.ok (pyStr "injection, not valid")) ≠ pyStr "injection" :=
  ⟨by decide, by decide, by decide, by decide⟩

/-- C3: when none of the three marker substrings occurs in the parsed
(stripped, lowercased) classifier response, and likewise when the
classification call raises, `check_injection` returns "unrelated". -/
theorem check_injection_fail_safe (response : Str)
    (h1 : hasSub (pyStr "valid") (pyLower (pyStrip response)) = false)
    (h2 : hasSub (pyStr "injection") (pyLower (pyStrip response)) = false)
    (h3 : hasSub (pyStr "unrelated") (pyLower (pyStrip response)) = false) :
    check_injection (.ok response) = pyStr "unrelated" ∧
    ∀ e : Str, check_injection (.error e) = pyStr "unrelated" := by
  refine ⟨?_, fun e => rfl⟩
  unfold check_injection classify_response
  simp [h1, h2, h3]

theorem check_injection_fail_safe_witness :
    check_injection (.ok (pyStr "Error generating response")) = pyStr "unrelated" ∧
    check_injection (.error (pyStr "boom")) = pyStr "unrelated" :=
  ⟨(check_injection_fail_safe (pyStr "Error generating response")
      (by decide) (by decide) (by decide)).1,
   (check_injection_fail_safe (pyStr "Error generating response")
      (by decide) (by decide) (by decide)).2 (pyStr "boom")⟩

/-- C4: `validate_sql` is total over arbitrary input — a parse
exception yields `false` — and returns `true` iff the parse succeeded and
produced at least one statement containing at least one token; on the
modelled sqlparse dialect, `""` and `"   "` are invalid and `"SELECT 1;"`
is valid. -/
theorem validate_sql_spec :
    (∀ (parse : Str → Except Str (List (List Str))) (sql : Str),
        validate_sql parse sql = true ↔
          ∃ parsed, parse sql = .ok parsed ∧ ∃ st, st ∈ parsed ∧ st ≠ []) ∧
    validate_sql sqlparse_model (pyStr "") = false ∧
    validate_sql sqlparse_model (pyStr "   ") = false ∧
    validate_sql sqlparse_model (pyStr "SELECT 1;") = true := by
  refine ⟨?_, by decide, by decide, by decide⟩
  intro parse sql
  unfold validate_sql
  cases hp : parse sql with
  | error e => simp [hp]
  | ok parsed =>
    simp only [hp]
    cases parsed with
    | nil => simp
    | cons s rest =>
      simp only [List.isEmpty_cons, Bool.false_eq_true, if_false, List.any_eq_true,
        Except.ok.injEq]
      constructor
      · rintro ⟨st, hmem, hne⟩
        exact ⟨s :: rest, rfl, st, hmem, by simpa using hne⟩
      · rintro ⟨parsed', hok, st, hmem, hne⟩
        subst hok
        exact ⟨st, hmem, by simpa using hne⟩

theorem validate_sql_spec_witness :
    validate_sql sqlparse_model (pyStr "SELECT 1;") = true :=
  validate_sql_spec.2.2.2

/-- C6 counterexample: a generator response with commentary before an
INSERT statement is returned unchanged — the claimed truncation before
"the first occurrence of that keyword" does not happen for INSERT (the
recovery step of `_extract_sql` searches only for SELECT). -/
theorem extract_sql_no_insert_recovery :
    starts_with_any genKeywords (pyUpper (pyStr "note: INSERT INTO t VALUES (1)")) = false ∧
    hasSub (pyStr "INSERT") (pyUpper (pyStr "note: INSERT INTO t VALUES (1)")) = true ∧
    extract_sql (pyStr "note: INSERT INTO t VALUES (1)") =
      pyStr "note: INSERT INTO t VALUES (1)" ∧
    extract_sql (pyStr "note: INSERT INTO t VALUES (1)") ≠
      pyStr "INSERT INTO t VALUES (1)" :=
  ⟨by decide, by decide, by decide, by decide⟩

/-- C6 (amended): after the fence strip, a text beginning with one of the
recognized keywords is only stripped; otherwise, if "SELECT" occurs in the
uppercased text, everything before its first occurrence is truncated, and
if it does not occur the text is returned (other keywords trigger no
truncation). -/
theorem extract_sql_select_only_recovery (response : Str) :
    (starts_with_any genKeywords (pyUpper (strip_code_fence (pyStrip response))) = true →
        extract_sql response = pyStrip (strip_code_fence (pyStrip response))) ∧
    (∀ i, starts_with_any genKeywords (pyUpper (strip_code_fence (pyStrip response))) = false →
        findSub (pyStr "SELECT") (pyUpper (strip_code_fence (pyStrip response))) = some i →
        extract_sql response = pyStrip ((strip_code_fence (pyStrip response)).drop i)) ∧
    (starts_with_any genKeywords (pyUpper (strip_code_fence (pyStrip response))) = false →
        findSub (pyStr "SELECT") (pyUpper (strip_code_fence (pyStrip response))) = none →
        extract_sql response = pyStrip (strip_code_fence (pyStrip response))) := by
  refine ⟨fun hk => ?_, fun i hk hf => ?_, fun hk hf => ?_⟩
  · unfold extract_sql; simp [hk]
  · unfold extract_sql; simp [hk, hf]
  · unfold extract_sql; simp [hk, hf]

theorem extract_sql_select_only_recovery_witness :
    extract_sql (pyStr "x SELECT 1") = pyStr "SELECT 1" :=
  (extract_sql_select_only_recovery (pyStr "x SELECT 1")).2.1 2 (by decide) (by decide)

theorem list_ends_with_append_semicolon (c : Str) :
    list_ends_with (pyStr ";") (c ++ pyStr ";") = true := by
  have h : pyStr ";" = [';'] := rfl
  rw [h]
  show isPre [';'].reverse (c ++ [';']).reverse = true
  rw [List.reverse_append]
  simp [isPre]

/-- C7 counterexample: an empty corrector response cleans to the empty
string, and no terminator is appended to it (`if corrected_sql and ...`
guards the append with truthiness), so the returned string does not end
with ";". -/
theorem extract_sql_clean_empty_no_terminator :
    extract_sql_clean (pyStr "") = pyStr "" ∧
    list_ends_with (pyStr ";") (extract_sql_clean (pyStr "")) = false :=
  ⟨by decide, by decide⟩

/-- C7 (amended): the cleaned string returned by `_extract_sql_clean` ends
with ";" whenever it is non-empty; a response whose assembled result is
empty is returned as the empty string with no terminator appended. -/
theorem extract_sql_clean_terminator (response : Str) :
    extract_sql_clean response = [] ∨
      list_ends_with (pyStr ";") (extract_sql_clean response) = true := by
  unfold extract_sql_clean finalize_semicolon
  cases hc : assemble_sql response with
  | nil => left; rfl
  | cons a t =>
    right
    by_cases he : list_ends_with (pyStr ";") (a :: t) = true
    · simp [he]
    · simp only [List.isEmpty_cons, Bool.not_false, Bool.true_and,
        Bool.not_eq_true] at *
      simp only [he, Bool.not_false, if_true]
      exact list_ends_with_append_semicolon (a :: t)

/-- A benign concrete environment used by witnesses: the classifier says
"valid", retrieval filters to no chunks, generation produces "SELECT 1",
the parse oracle accepts everything, execution returns one row. -/
def env0 : Env :=
  { classifyCall := .ok (pyStr "valid")
    embedCall := fun _ => .ok [1]
    storeQuery := fun _ _ => .ok []
    threshold := 7/4
    topk := 2
    reasonCall := fun _ _ => pyStr "reasoning"
    genCall := fun _ _ _ => pyStr "SELECT 1"
    correctCall := fun _ _ _ => pyStr "SELECT 2;"
    fmtCall := fun _ => pyStr "formatted"
    parse := fun _ => .ok [[pyStr "SELECT"]]
    exec := fun _ => ExecOut.table [pyStr "c"] [[some (pyStr "v")]] }

/-- C2: `check_injection` always returns one of three non-empty strings, so
the truthiness test `if not is_safe:` of `process_query` never fires: the
`security_violation` branch of `process_query` is unreachable, retrieval is
always invoked, and (when retrieval returns) reasoning and SQL generation
are invoked as well, whatever the classifier answered. -/
theorem process_query_security_gate_always_passes (env : Env) (uq : Str) :
    check_injection env.classifyCall ≠ [] ∧
    (check_injection env.classifyCall = pyStr "valid" ∨
      check_injection env.classifyCall = pyStr "injection" ∨
      check_injection env.classifyCall = pyStr "unrelated") ∧
    (process_query env uq).1.error_type ≠ some (pyStr "security_violation") ∧
    (process_query env uq).2.retrievalCalled = true ∧
    (∀ ctx chunks, get_schema_context env uq env.topk = .ok ctx →
        retrieve_chunks env uq env.topk = .ok chunks →
        (process_query env uq).2.reasoningCalled = true ∧
        (process_query env uq).2.generationCalled = true) := by
  have hne := check_injection_ne_nil env.classifyCall
  have hempty : (check_injection env.classifyCall).isEmpty = false := by
    cases h : check_injection env.classifyCall with
    | nil => exact absurd h hne
    | cons a t => rfl
  refine ⟨hne, check_injection_cases env.classifyCall, ?_, ?_, fun ctx chunks h1 h2 => ?_⟩
  · unfold process_query
    simp only [hempty, Bool.false_eq_true, if_false]
    cases h1 : get_schema_context env uq env.topk with
    | error e => simp [pq_catch_result]
    | ok ctx =>
      cases h2 : retrieve_chunks env uq env.topk with
      | error e => simp [pq_catch_result]
      | ok chunks => simp
  · unfold process_query
    simp only [hempty, Bool.false_eq_true, if_false]
    cases h1 : get_schema_context env uq env.topk with
    | error e => simp
    | ok ctx =>
      cases h2 : retrieve_chunks env uq env.topk with
      | error e => simp
      | ok chunks => simp
  · unfold process_query
    simp [hempty, h1, h2]

theorem process_query_security_gate_always_passes_witness :
    (process_query env0 (pyStr "list hcps")).2.reasoningCalled = true ∧
    (process_query env0 (pyStr "list hcps")).2.generationCalled = true :=
  (process_query_security_gate_always_passes env0 (pyStr "list hcps")).2.2.2.2 _ _ rfl rfl

/-- C5 counterexample: a terminal result of the `process_query` entry point
that carries no `formatted_response` at all (its success dictionary has no
such key), refuting the claim for this entry point. -/
theorem process_query_missing_formatted_response :
    (process_query env0 (pyStr "list hcps")).1.status = pyStr "success" ∧
    (process_query env0 (pyStr "list hcps")).1.formatted_response = none :=
  ⟨by decide, by decide⟩

/-- C5 (amended): every terminal result of `process_query_with_execution`
carries a `formatted_response` together with a success status or an error
status plus an error kind, and both entry points always terminate in a
structured result (never an unhandled fault) — but `process_query` results
carry no `formatted_response`. -/
theorem terminal_results_structured (env : Env) (uq : Str) :
    ((∃ f, (process_query_with_execution env uq).1.formatted_response = some f) ∧
      ((process_query_with_execution env uq).1.status = pyStr "success" ∨
        ((process_query_with_execution env uq).1.status = pyStr "error" ∧
          ∃ t, (process_query_with_execution env uq).1.error_type = some t))) ∧
    ((process_query env uq).1.user_query = uq ∧
      ((process_query env uq).1.status = pyStr "success" ∨
        (process_query env uq).1.status = pyStr "error")) := by
  constructor
  · simp only [process_query_with_execution, pqwe_after_gate, pqwe_exec_phase]
    repeat' split
    all_goals
      first
      | exact ⟨⟨_, rfl⟩, Or.inl rfl⟩
      | exact ⟨⟨_, rfl⟩, Or.inr ⟨rfl, _, rfl⟩⟩
  · simp only [process_query]
    repeat' split
    all_goals
      first
      | exact ⟨rfl, Or.inl rfl⟩
      | exact ⟨rfl, Or.inr rfl⟩

theorem pqwe_shape (env : Env) (uq : Str) :
    (process_query_with_execution env uq).2 = {} ∨
    (process_query_with_execution env uq).2 = { retrievalCalled := true } ∨
    ∃ ctx chunks, get_schema_context env uq env.topk = Except.ok ctx ∧
      retrieve_chunks env uq env.topk = Except.ok chunks ∧
      process_query_with_execution env uq = pqwe_after_gate env uq ctx chunks := by
  rcases check_injection_cases env.classifyCall with hc | hc | hc
  · simp only [process_query_with_execution, hc]
    rw [if_neg (by decide), if_neg (by decide)]
    cases h1 : get_schema_context env uq env.topk with
    | error e => simp only [h1]; right; left; trivial
    | ok ctx =>
      cases h2 : retrieve_chunks env uq env.topk with
      | error e => simp only [h1, h2]; right; left; trivial
      | ok chunks =>
        simp only [h1, h2]
        exact Or.inr (Or.inr ⟨ctx, chunks, rfl, rfl, rfl⟩)
  · left
    simp only [process_query_with_execution, hc]
    simp
  · left
    simp only [process_query_with_execution, hc]
    rw [if_neg (by decide)]
    simp

/-- C8: for every run of `process_query_with_execution`, the corrector is
invoked at most once; it is not invoked when the generated SQL validates
(the run then proceeds with the generated SQL); it is invoked exactly once
when validation fails, the run then proceeds with the corrector's output,
and a successful run is flagged `was_sql_corrected` exactly when the
generated SQL failed validation — with no second validation-correction
round. -/
theorem sql_correction_invoked_at_most_once (env : Env) (uq : Str) :
    (process_query_with_execution env uq).2.correctionCalls ≤ 1 ∧
    (∀ g, (process_query_with_execution env uq).2.generatedSql = some g →
        validate_sql env.parse g = true →
        (process_query_with_execution env uq).2.correctionCalls = 0 ∧
        (process_query_with_execution env uq).2.finalSql = some g) ∧
    (∀ g ctx, (process_query_with_execution env uq).2.generatedSql = some g →
        (process_query_with_execution env uq).2.schemaCtx = some ctx →
        validate_sql env.parse g = false →
        (process_query_with_execution env uq).2.correctionCalls = 1 ∧
        (process_query_with_execution env uq).2.finalSql =
          some (correct_sql env g ctx uq)) ∧
    (∀ g, (process_query_with_execution env uq).2.generatedSql = some g →
        (process_query_with_execution env uq).1.status = pyStr "success" →
        (process_query_with_execution env uq).1.was_sql_corrected =
          some (!validate_sql env.parse g)) := by
  have herr : pyStr "error" ≠ pyStr "success" := by decide
  refine ⟨?_, fun g hg hv => ?_, fun g ctx hg hctx hv => ?_, fun g hg => ?_⟩
  · rcases pqwe_shape env uq with h | h | ⟨ctx0, chunks0, h1, h2, heq⟩
    · rw [h]; exact Nat.zero_le 1
    · rw [h]; exact Nat.zero_le 1
    · rw [heq]
      simp only [pqwe_after_gate]
      split <;> simp
  · rcases pqwe_shape env uq with h | h | ⟨ctx0, chunks0, h1, h2, heq⟩
    · rw [h] at hg; exact Option.noConfusion hg
    · rw [h] at hg; exact Option.noConfusion hg
    · rw [heq] at hg ⊢
      simp only [pqwe_after_gate, Option.some.injEq] at hg ⊢
      subst hg
      simp [hv]
  · rcases pqwe_shape env uq with h | h | ⟨ctx0, chunks0, h1, h2, heq⟩
    · rw [h] at hg; exact Option.noConfusion hg
    · rw [h] at hg; exact Option.noConfusion hg
    · rw [heq] at hg hctx ⊢
      simp only [pqwe_after_gate, Option.some.injEq] at hg hctx ⊢
      subst hg
      subst hctx
      simp [hv]
  · rcases pqwe_shape env uq with h | h | ⟨ctx0, chunks0, h1, h2, heq⟩
    · rw [h] at hg; exact Option.noConfusion hg
    · rw [h] at hg; exact Option.noConfusion hg
    · rw [heq] at hg ⊢
      simp only [pqwe_after_gate, Option.some.injEq] at hg ⊢
      subst hg
      simp only [pqwe_exec_phase]
      repeat' split
      all_goals intro hst
      all_goals first
        | rfl
        | exact absurd hst herr

def env8 : Env := { env0 with parse := fun _ => .error (pyStr "parse failure") }

theorem sql_correction_invoked_at_most_once_witness :
    (process_query_with_execution env8 (pyStr "count interactions")).2.correctionCalls = 1 :=
  ((sql_correction_invoked_at_most_once env8 (pyStr "count interactions")).2.2.1
    (pyStr "SELECT 1") (pyStr "No relevant schema found.")
    (by decide) (by decide) (by decide)).1

theorem is_db_error_isEmpty_false {s : Str} (h : is_db_error s = true) :
    s.isEmpty = false := by
  cases s with
  | nil => exact absurd h (by decide)
  | cons a t => rfl

/-- C9: whenever execution of the final SQL returns the no-columns shape
with a result string bearing a "Database Error:" or "Unexpected Error:"
marker, `process_query_with_execution` renders the response through the
ResultFormatter error branch (whose prompt depends only on the user query)
and terminates with status "error", error kind "database_execution", and
the attempted SQL still populated. -/
theorem database_execution_error_terminal (env : Env) (uq q s : Str)
    (hq : (process_query_with_execution env uq).2.finalSql = some q)
    (hex : env.exec q = ExecOut.message s)
    (hpre : is_db_error s = true) :
    (process_query_with_execution env uq).1.status = pyStr "error" ∧
    (process_query_with_execution env uq).1.error_type = some (pyStr "database_execution") ∧
    (process_query_with_execution env uq).1.sql_query = some q ∧
    (process_query_with_execution env uq).1.formatted_response =
      some (env.fmtCall (FmtKey.errK uq)) := by
  rcases pqwe_shape env uq with h | h | ⟨ctx0, chunks0, h1, h2, heq⟩
  · rw [h] at hq; exact Option.noConfusion hq
  · rw [h] at hq; exact Option.noConfusion hq
  · rw [heq] at hq ⊢
    simp only [pqwe_after_gate, Option.some.injEq] at hq ⊢
    subst hq
    simp only [pqwe_exec_phase, hex, hpre, if_true, format_query_results, pyTruthyOptStr,
      is_db_error_isEmpty_false hpre, Bool.not_false, if_true]
    refine ⟨?_, ?_, ?_, ?_⟩ <;> trivial

def env9 : Env := { env0 with exec := fun _ => ExecOut.message (pyStr "Database Error: bad column") }

theorem database_execution_error_terminal_witness :
    (process_query_with_execution env9 (pyStr "count interactions")).1.error_type =
      some (pyStr "database_execution") ∧
    (process_query_with_execution env9 (pyStr "count interactions")).1.sql_query =
      some (pyStr "SELECT 1") :=
  ⟨(database_execution_error_terminal env9 (pyStr "count interactions") (pyStr "SELECT 1")
      (pyStr "Database Error: bad column") (by decide) rfl (by decide)).2.1,
   (database_execution_error_terminal env9 (pyStr "count interactions") (pyStr "SELECT 1")
      (pyStr "Database Error: bad column") (by decide) rfl (by decide)).2.2.1⟩

/-- C10: a retrieval that filters to no chunks makes `get_schema_context`
return exactly the sentinel "No relevant schema found."; an embedding
failure (empty embedding) makes `retrieve_chunks` return the empty list;
and `get_schema_context` never returns an empty string. -/
theorem get_schema_context_sentinel (env : Env) (query : Str) (k : Nat) :
    (retrieve_chunks env query k = .ok [] →
        get_schema_context env query k = .ok (pyStr "No relevant schema found.")) ∧
    (get_embedding env query = [] → retrieve_chunks env query k = .ok []) ∧
    (∀ ctx, get_schema_context env query k = .ok ctx → ctx ≠ []) := by
  refine ⟨fun h => ?_, fun h => ?_, fun ctx h => ?_⟩
  · unfold get_schema_context
    rw [h]
    rfl
  · unfold retrieve_chunks
    rw [h]
    rfl
  · unfold get_schema_context at h
    cases hr : retrieve_chunks env query k with
    | error e => rw [hr] at h; exact Except.noConfusion h
    | ok chunks =>
      rw [hr] at h
      cases chunks with
      | nil =>
        simp only [List.isEmpty_nil, if_true, Except.ok.injEq] at h
        subst h
        decide
      | cons c rest =>
        simp only [List.isEmpty_cons, Bool.false_eq_true, if_false, Except.ok.injEq] at h
        subst h
        have hR : build_schema_context (c :: rest) =
            'R' :: (pyStr "elevant Database Schema:\n\n" ++ context_entries 1 (c :: rest)) := rfl
        rw [hR]
        simp

def envE : Env := { env0 with embedCall := fun _ => .error (pyStr "embedding failure") }

theorem get_schema_context_sentinel_witness :
    get_schema_context envE (pyStr "list hcps") 2 = .ok (pyStr "No relevant schema found.") :=
  (get_schema_context_sentinel envE (pyStr "list hcps") 2).1
    ((get_schema_context_sentinel envE (pyStr "list hcps") 2).2.1 rfl)
